import Mathlib

/-!
Verification development for the HiRAG_Law repository's hierarchical
cache-and-index subsystem.

Shallow embedding notes:
- Python strings are modelled as Lean `String`s, with the Python operations
  (`len`, slicing, `strip`, `startswith`, `join`) defined over the underlying
  character list (`String.data`), matching Python's codepoint semantics.
- The nested parsed-tree dicts are modelled by the mutual inductive
  `PyTree`/`Entries` (an ordered association list of `title ↦ value`).
- The SQLite tables (`documents`, `hierarchy`, `cache_status`) are modelled as
  lists of row records inside a `DBState`; `AUTOINCREMENT` ids are explicit
  counters; `CURRENT_TIMESTAMP` is the state's `now` counter.
- The ChromaDB client is modelled as a list of named collections; the objects
  directory is modelled as the list of file names present (artifact bytes are
  opaque).
- Operations that can raise in Python (`StopIteration` from `next(iter({}))`,
  `sqlite3.InterfaceError` on inserting a dict, `AttributeError` on
  duck-typing failures, `raise ValueError`) return `Except`.
- The external completion collaborator (`Settings.llm.complete`) is a
  parameter `llm : String → Except String String`; `.error` models a raised
  exception. Embedding vectors (floats) are not modelled; only the existence
  and metadata of vector records, which is all the persistence layer inspects.
-/

/-! Section: Python string primitives over the character list -/

/-- Python `len(s)` (number of codepoints). -/
def pyLen (s : String) : Nat := s.data.length

/-- Python `s[:n]` (first `n` codepoints). -/
def pyTake (n : Nat) (s : String) : String := ⟨s.data.take n⟩

/-- Strip leading and trailing whitespace from a character list. -/
def stripChars (l : List Char) : List Char :=
  ((l.dropWhile Char.isWhitespace).reverse.dropWhile Char.isWhitespace).reverse

/-- Python `s.strip()`. -/
def pyStrip (s : String) : String := ⟨stripChars s.data⟩

/-- Python `s.startswith(p)`. -/
def pyStartsWith (s p : String) : Bool := p.data.isPrefixOf s.data

/-- Python `s.endswith(p)`. -/
def pyEndsWith (s p : String) : Bool := p.data.isSuffixOf s.data

/-- Python `sep.join(l)`. -/
def pyJoin (sep : String) : List String → String
  | [] => ""
  | [x] => x
  | x :: rest => x ++ sep ++ pyJoin sep rest

/-! Section: The parsed law tree

`parse_law_text` produces a nested Python dict: values are either a further
dict (ordered by insertion) or, at clause level, a content string. -/

mutual
/-- A Python value in the parsed tree: a string leaf or an ordered dict. -/
inductive PyTree where
  | leaf (s : String) : PyTree
  | node (entries : Entries) : PyTree
deriving Repr

/-- The `(title, value)` items of one dict, in insertion order. -/
inductive Entries where
  | nil : Entries
  | cons (title : String) (sub : PyTree) (rest : Entries) : Entries
deriving Repr
end

/-- Python `d.keys()` of a dict, in order. -/
def Entries.titles : Entries → List String
  | .nil => []
  | .cons t _ rest => t :: rest.titles

/-- Whether a dict is empty. -/
def Entries.isEmpty : Entries → Bool
  | .nil => true
  | .cons _ _ _ => false

/-- The `law_tree` dict: `metadata.title` plus the `content` dict
(`metadata.source` plays no role in the persistence layer and is omitted). -/
structure LawTree where
  title : String
  content : Entries
deriving Repr

/-- Python truthiness of a tree value (`if not article_clauses`):
an empty string and an empty dict are falsy. -/
def pyFalsy : PyTree → Bool
  | .leaf s => s = ""
  | .node es => es.isEmpty

/-! Section: SQLite / ChromaDB / object-store state -/

/-- A row of the `documents` table. -/
structure DocumentRow where
  id : Nat
  file_path : String
  file_hash : String
  title : String
  created_at : Nat
  updated_at : Nat
deriving Repr, DecidableEq

/-- A row of the `hierarchy` table. -/
structure HierarchyRow where
  id : Nat
  document_id : Nat
  parent_id : Option Nat
  level : String
  title : String
  content : String
  order_index : Nat
  vector_collection : Option String
  vector_id : Option String
deriving Repr, DecidableEq

/-- A row of the `cache_status` table. `build_stats` holds the JSON stats
blob; it is modelled as the `engines_count` figure that the code stores
(file sizes are not modellable). -/
structure CacheStatusRow where
  document_id : Nat
  parsing_done : Bool
  indexing_done : Bool
  embeddings_done : Bool
  last_build : Option Nat
  build_stats : Option Nat
deriving Repr, DecidableEq

/-- One embeddings record passed to `save_embeddings`: its ChromaDB id, the
optional `hierarchy_id` back-reference in its metadata, and the source text.
The float vector itself is opaque to the persistence logic. -/
structure EmbItem where
  id : String
  hierarchy_id : Option Nat
  text : String
deriving Repr, DecidableEq

/-- The combined persistent state of `DatabaseManager`: the three SQLite
tables, the ChromaDB collections, the `objects/` directory file names, the
AUTOINCREMENT counters and the clock. -/
structure DBState where
  documents : List DocumentRow
  hierarchy : List HierarchyRow
  cache_status : List CacheStatusRow
  collections : List (String × List EmbItem)
  objects : List String
  next_doc_id : Nat
  next_hier_id : Nat
  now : Nat
deriving Repr

/-- The state of a fresh `DatabaseManager` (empty tables, ids start at 1). -/
def emptyDB : DBState :=
  { documents := [], hierarchy := [], cache_status := [], collections := []
    objects := [], next_doc_id := 1, next_hier_id := 1, now := 0 }

/-- Python `Path(file_path).stem`: file name without its last extension. -/
def pathStem (p : String) : String :=
  let base := ((p.splitOn "/").reverse).headD ""
  let parts := base.splitOn "."
  if parts.length ≤ 1 then base else pyJoin "." parts.dropLast

/-! Section: `register_document` -/

/-- Model of `DatabaseManager.register_document`.  The MD5 content hash of the file is
passed in (file I/O is external to the model).  Returns the updated state and
the document id. -/
def register_document (st : DBState) (file_path : String) (title : Option String)
    (file_hash : String) : DBState × Nat :=
  match st.documents.find? (fun d => d.file_path = file_path) with
  | some d =>
      if d.file_hash = file_hash then
        (st, d.id)
      else
        ({ st with
            documents := st.documents.map (fun x =>
              if x.id = d.id then { x with file_hash := file_hash, updated_at := st.now }
              else x)
            cache_status := st.cache_status.filter (fun c => c.document_id ≠ d.id)
            hierarchy := st.hierarchy.filter (fun r => r.document_id ≠ d.id) },
         d.id)
  | none =>
      ({ st with
          documents := st.documents ++
            [{ id := st.next_doc_id, file_path := file_path, file_hash := file_hash
               title := title.getD (pathStem file_path)
               created_at := st.now, updated_at := st.now }]
          next_doc_id := st.next_doc_id + 1 },
       st.next_doc_id)

/-! Section: `is_cache_complete` -/

/-- Model of `DatabaseManager.is_cache_complete`. -/
def is_cache_complete (st : DBState) (doc_id : Nat) : Bool :=
  match st.cache_status.find? (fun c => c.document_id = doc_id) with
  | some r => r.parsing_done && r.indexing_done && r.embeddings_done
  | none => false

/-! Section: `save_law_tree` and its recursive save -/

/-- Mutable cursor state while saving the hierarchy: the rows inserted so far
and the next AUTOINCREMENT id (`cursor.lastrowid` is the id of the row just
inserted). -/
structure HierSt where
  rows : List HierarchyRow
  next_id : Nat
deriving Repr

/-- One `INSERT INTO hierarchy` (new rows have NULL vector/object columns). -/
def insertHierRow (h : HierSt) (doc_id : Nat) (parent_id : Option Nat)
    (level title content : String) (order_index : Nat) : HierSt :=
  { rows := h.rows ++
      [{ id := h.next_id, document_id := doc_id, parent_id := parent_id
         level := level, title := title, content := content
         order_index := order_index, vector_collection := none, vector_id := none }]
    next_id := h.next_id + 1 }

/-- The `level_mapping` dict of `_save_hierarchy_recursive`. -/
def levelMapping : String → Option (String × String)
  | "root" => some ("part", "PHẦN")
  | "part" => some ("chapter", "CHƯƠNG")
  | "chapter" => some ("section_or_article", "MỤC|Điều")
  | "section" => some ("article", "Điều")
  | "article" => some ("clause", "Khoản")
  | _ => none

/-- The leaf branch of `_save_hierarchy_recursive`
(`level_mapping.get(level)` returned `None` and `level == "article"`): insert
each entry of the dict as a `clause` row with its literal content.  Inserting
a dict value into SQLite would raise `sqlite3.InterfaceError`. -/
def saveClauses (doc_id node_id : Nat) : Entries → Nat → HierSt →
    Except String HierSt
  | .nil, _, h => .ok h
  | .cons clause_key clause_content rest, j, h =>
    match clause_content with
    | .leaf s => saveClauses doc_id node_id rest (j + 1)
        (insertHierRow h doc_id (some node_id) "clause" clause_key s j)
    | .node _ => .error "sqlite3.InterfaceError"

/-- Model of `DatabaseManager._save_hierarchy_recursive`, with the enumeration index
`i` made explicit.  Faithfully reproduces the source's level bookkeeping:
nodes are inserted at the *current* `level` argument (the top-level call
passes `"root"`), children recurse at `level_mapping[level]`, and the
chapter special case sniffs the first key of the *child* dict
(`next(iter(sub_content.keys()))` raises `StopIteration` on an empty dict). -/
def saveHierarchyRec (doc_id : Nat) (content : Entries)
    (parent_id : Option Nat) (level : String) (ord : Nat) (i : Nat) (h : HierSt) :
    Except String HierSt :=
  match content with
  | .nil => .ok h
  | .cons title sub_content rest =>
    let node_id := h.next_id
    let h1 := insertHierRow h doc_id parent_id level title "" (ord + i)
    let afterChild : Except String HierSt :=
      match sub_content with
      | .leaf _ => .ok h1
      | .node subEntries =>
        match levelMapping level with
        | some (next_level, _pattern) =>
          if level = "chapter" then
            match subEntries with
            | .nil => .error "StopIteration"
            | .cons first_key _ _ =>
              saveHierarchyRec doc_id subEntries (some node_id)
                (if pyStartsWith first_key "Mục" then "section" else "article") 0 0 h1
          else
            saveHierarchyRec doc_id subEntries (some node_id) next_level 0 0 h1
        | none =>
          if level = "article" then saveClauses doc_id node_id subEntries 0 h1
          else .ok h1
    match afterChild with
    | .error e => .error e
    | .ok h2 => saveHierarchyRec doc_id rest parent_id level ord (i + 1) h2

/-- Semantics of `INSERT OR REPLACE INTO cache_status`: the conflicting row (same primary
key) is deleted and the new row inserted; unspecified columns take their
schema defaults. -/
def upsertCacheRow (rows : List CacheStatusRow) (r : CacheStatusRow) :
    List CacheStatusRow :=
  rows.filter (fun x => x.document_id ≠ r.document_id) ++ [r]

/-- Model of `DatabaseManager.save_law_tree`: save the hierarchy rows, then
`INSERT OR REPLACE` the cache-status row with `parsing_done = TRUE`,
`last_build = CURRENT_TIMESTAMP` and schema defaults (`FALSE`, `NULL`) for
every other column. -/
def save_law_tree (st : DBState) (doc_id : Nat) (law_tree : LawTree) :
    Except String DBState :=
  match saveHierarchyRec doc_id law_tree.content none "root" 0 0
      ⟨st.hierarchy, st.next_hier_id⟩ with
  | .error e => .error e
  | .ok h =>
    .ok { st with
            hierarchy := h.rows, next_hier_id := h.next_id
            cache_status := upsertCacheRow st.cache_status
              { document_id := doc_id, parsing_done := true, indexing_done := false
                embeddings_done := false, last_build := some st.now, build_stats := none } }

/-! Section: `load_law_tree` and its recursive load -/

/-- Insert a row behind every row of no larger `order_index` (one step of a
stable insertion sort). -/
def insertByOrder (r : HierarchyRow) : List HierarchyRow → List HierarchyRow
  | [] => [r]
  | x :: xs => if x.order_index ≤ r.order_index then x :: insertByOrder r xs else r :: x :: xs

/-- Stable insertion sort by `order_index` (`ORDER BY order_index`; SQLite
returns tied rows in table order for this query). -/
def sortByOrder (rows : List HierarchyRow) : List HierarchyRow :=
  rows.foldl (fun acc r => insertByOrder r acc) []

/-- Turn a list of child rows into dict entries, building each child's value
with `loadChild`. -/
def rowsToEntries (loadChild : HierarchyRow → PyTree) : List HierarchyRow → Entries
  | [] => .nil
  | r :: rest => .cons r.title (loadChild r) (rowsToEntries loadChild rest)

/-- Model of `DatabaseManager._load_hierarchy_recursive`: re-nest the children of
`parent_id` ordered by `order_index`; `clause` rows become string leaves,
all other rows become sub-dicts.  The recursion is fuelled by the number of
hierarchy rows, which bounds the depth of any forest of table rows. -/
def loadHierarchyRec (rows : List HierarchyRow) : Nat → Nat → Entries
  | 0, _ => .nil
  | fuel + 1, parent_id =>
    let children := sortByOrder (rows.filter (fun r => r.parent_id = some parent_id))
    rowsToEntries (fun r =>
      if r.level = "clause" then PyTree.leaf r.content
      else PyTree.node (loadHierarchyRec rows fuel r.id)) children

/-- Model of `DatabaseManager.load_law_tree`: `None` if the document record is absent;
otherwise the re-nested tree rooted at this document's rows with
`level = 'part'`, ordered by `order_index`. -/
def load_law_tree (st : DBState) (doc_id : Nat) : Option LawTree :=
  match st.documents.find? (fun d => d.id = doc_id) with
  | none => none
  | some d =>
    let parts := sortByOrder (st.hierarchy.filter
      (fun r => r.document_id = doc_id ∧ r.level = "part"))
    some { title := d.title
           content := rowsToEntries (fun r =>
             PyTree.node (loadHierarchyRec st.hierarchy st.hierarchy.length r.id)) parts }

/-! Section: `save_embeddings`, `save_indices`, `clear_document_cache` -/

/-- The per-document ChromaDB collection name `f"doc_{doc_id}_embeddings"`. -/
def collectionName (doc_id : Nat) : String :=
  "doc_" ++ toString doc_id ++ "_embeddings"

/-- Model of `DatabaseManager.save_embeddings`: drop any existing per-document
collection, create it afresh with the given records, then patch
`vector_collection` / `vector_id` onto each hierarchy row named by a record's
`hierarchy_id` metadata.  The surrounding `try/except` only matters for store
I/O failures, which the pure model does not produce. -/
def save_embeddings (st : DBState) (doc_id : Nat) (embeddings_data : List EmbItem) :
    DBState :=
  let cname := collectionName doc_id
  let collections :=
    st.collections.filter (fun c => c.1 ≠ cname) ++ [(cname, embeddings_data)]
  let hierarchy := embeddings_data.foldl (fun rows item =>
    match item.hierarchy_id with
    | some hid => rows.map (fun r =>
        if r.id = hid then { r with vector_collection := some cname, vector_id := some item.id }
        else r)
    | none => rows) st.hierarchy
  { st with collections := collections, hierarchy := hierarchy }

/-- Artifact file name `f"doc_{doc_id}_top_index.pkl"`. -/
def topIndexFile (doc_id : Nat) : String := "doc_" ++ toString doc_id ++ "_top_index.pkl"

/-- Artifact file name `f"doc_{doc_id}_engines.pkl"`. -/
def enginesFile (doc_id : Nat) : String := "doc_" ++ toString doc_id ++ "_engines.pkl"

/-- Model of `DatabaseManager.save_indices`: pickle both artifacts into `objects/`,
then `UPDATE cache_status SET indexing_done = TRUE, embeddings_done = TRUE,
last_build = CURRENT_TIMESTAMP, build_stats = ... WHERE document_id = ?`
(an UPDATE: if no cache-status row exists, no flag is set).  The pickled
objects are opaque; only the files' existence and the engines count (stored
in `build_stats`) are modelled. -/
def save_indices (st : DBState) (doc_id : Nat) (engines_count : Nat) : DBState :=
  let f1 := topIndexFile doc_id
  let f2 := enginesFile doc_id
  let objects := st.objects.filter (fun o => o ≠ f1 ∧ o ≠ f2) ++ [f1, f2]
  let cache_status := st.cache_status.map (fun c =>
    if c.document_id = doc_id then
      { c with indexing_done := true, embeddings_done := true
               last_build := some st.now, build_stats := some engines_count }
    else c)
  { st with objects := objects, cache_status := cache_status }

/-- The `doc_{doc_id}_*.pkl` glob match used by `clear_document_cache`. -/
def matchesDocPkl (doc_id : Nat) (name : String) : Bool :=
  pyStartsWith name ("doc_" ++ toString doc_id ++ "_") && pyEndsWith name ".pkl"

/-- The DISTINCT non-NULL `vector_collection` values of a document's
hierarchy rows — the only collections `clear_document_cache` deletes. -/
def referencedCollections (st : DBState) (doc_id : Nat) : List String :=
  (st.hierarchy.filter (fun r => r.document_id = doc_id)).filterMap
    (fun r => r.vector_collection)

/-- Model of `DatabaseManager.clear_document_cache`: delete the ChromaDB collections
referenced from the document's hierarchy rows, delete the document's
hierarchy and cache-status rows, and unlink `objects/doc_{id}_*.pkl`.
The `documents` row is untouched. -/
def clear_document_cache (st : DBState) (doc_id : Nat) : DBState :=
  let cnames := referencedCollections st doc_id
  { st with
      collections := st.collections.filter (fun c => ¬ c.1 ∈ cnames)
      hierarchy := st.hierarchy.filter (fun r => r.document_id ≠ doc_id)
      cache_status := st.cache_status.filter (fun c => c.document_id ≠ doc_id)
      objects := st.objects.filter (fun o => ¬ matchesDocPkl doc_id o) }

/-! Section: Hierarchical index builder (`indexing.py`)

A `VectorStoreIndex` / query engine is modelled by the list of texts of the
nodes it indexes; `IndexNode` keeps its `text`, `index_id` and metadata dict.
The LLM collaborator is a parameter `llm : String → Except String String`
(`.error` = the call raised). -/

/-- A LlamaIndex `IndexNode` as the builder constructs it. -/
structure IndexNode where
  text : String
  index_id : String
  metadata : List (String × String)
deriving Repr, DecidableEq

/-- A query engine, modelled by the texts of the nodes its index holds. -/
abbrev Engine := List String

/-- Errors escaping `build_hierarchical_index`: a Python `TypeError` /
`AttributeError` from duck-typing a malformed tree, or the explicit
`ValueError` raised when no part-level node was produced. -/
inductive BuildError where
  | typeError (msg : String) : BuildError
  | valueError (msg : String) : BuildError
deriving Repr, DecidableEq

/-- Python `sub.items()`: iterating a string raises. -/
def pyItems : PyTree → Except BuildError Entries
  | .node es => .ok es
  | .leaf _ => .error (.typeError "AttributeError: str object has no attribute items")

/-- Python dict assignment `d[k] = v`: replace in place if the key exists,
otherwise append (insertion order preserved). -/
def dictInsert {α : Type} (m : List (String × α)) (k : String) (v : α) :
    List (String × α) :=
  if m.any (fun p => p.1 = k) then m.map (fun p => if p.1 = k then (k, v) else p)
  else m ++ [(k, v)]

/-- Python dict lookup `d[k]` (as an option). -/
def dictLookup {α : Type} (m : List (String × α)) (k : String) : Option α :=
  (m.find? (fun p => p.1 = k)).map (fun p => p.2)

/-- The truncation `combined_text[:n] + "..." if len(combined_text) > n else combined_text` —
the deterministic truncation used for both the LLM input cap (`n = 8000`) and
the fallback summary (`n = 300`). -/
def pyTruncate (n : Nat) (s : String) : String :=
  if pyLen s > n then pyTake n s ++ "..." else s

/-- The summarization prompt template of `summarize_nodes`. -/
def summaryPromptText (sPrompt combined : String) : String :=
  "\n" ++ sPrompt ++ " dựa trên các nội dung sau:\n\n" ++ combined ++
  "\n\nHãy tóm tắt ngắn gọn và súc tích theo yêu cầu sau:\n" ++
  "- Nêu được ý chính và điểm quan trọng nhất\n" ++
  "- Sử dụng ngôn ngữ pháp lý chính xác\n" ++
  "- Độ dài không quá 200 từ\n" ++
  "- Giữ nguyên các thuật ngữ pháp luật quan trọng\n\nTóm tắt:"

/-- Model of `summarize_nodes(nodes, summary_prompt_prefix, level)`.  `nodes` is the
list of node texts (every node the builder passes carries a `.text`).  The
`level` argument is only used for logging in the source. -/
def summarize_nodes (llm : String → Except String String) (nodes : List String)
    (sPrompt : String) (_level : String) : String :=
  if nodes.isEmpty then "Không có nội dung."
  else
    let node_texts := nodes
    if node_texts.isEmpty then "Không có nội dung hợp lệ."
    else
      let combined_text := pyJoin "\n" node_texts
      let combined_text := pyTruncate 8000 combined_text
      match llm (summaryPromptText sPrompt combined_text) with
      | .error _ => pyTruncate 300 combined_text
      | .ok t =>
        let summary := pyStrip t
        if summary = "" ∨ pyLen summary < 10 then pyTruncate 300 combined_text
        else summary

/-- The clause loop of `build_article_index`: keep
`f"{article_title} - {clause_key}: {clause_content.strip()}"` for each
clause whose content is a non-empty, non-whitespace string.  A falsy value
(empty string or empty dict) is skipped by the `if`; calling `.strip()` on a
non-empty dict raises. -/
def collectClauseNodes (article_title : String) :
    Entries → Except BuildError (List String)
  | .nil => .ok []
  | .cons clause_key clause_content rest =>
    match clause_content with
    | .leaf s =>
      match collectClauseNodes article_title rest with
      | .error e => .error e
      | .ok ns =>
        if s ≠ "" ∧ pyStrip s ≠ "" then
          .ok ((article_title ++ " - " ++ clause_key ++ ": " ++ pyStrip s) :: ns)
        else .ok ns
    | .node es =>
      if es.isEmpty then collectClauseNodes article_title rest
      else .error (.typeError "AttributeError: dict object has no attribute strip")

/-- Model of `build_article_index(article_title, article_clauses, context)`: `none`
models the `(None, None)` return for an article with no (valid) clauses;
otherwise the article `IndexNode` and the clause-level query engine. -/
def build_article_index (llm : String → Except String String)
    (article_title : String) (article_clauses : PyTree) (context : String) :
    Except BuildError (Option (IndexNode × Engine)) :=
  if pyFalsy article_clauses then .ok none
  else
    match pyItems article_clauses with
    | .error e => .error e
    | .ok cl =>
      match collectClauseNodes article_title cl with
      | .error e => .error e
      | .ok clause_nodes =>
        if clause_nodes.isEmpty then .ok none
        else
          let article_summary := summarize_nodes llm clause_nodes
            ("Tóm tắt nội dung chính của " ++ article_title) "article"
          .ok (some
            ({ text := article_title ++ ": " ++ article_summary
               index_id := article_title
               metadata := [("level", "article"),
                            ("num_clauses", toString clause_nodes.length),
                            ("context", context)] },
             clause_nodes))

/-- The article loop inside a `Mục` (section): accumulate article nodes and
register each article's engine under the article title. -/
def processArticles (llm : String → Except String String) (section_title : String) :
    Entries → List IndexNode → List (String × Engine) →
    Except BuildError (List IndexNode × List (String × Engine))
  | .nil, acc, eng => .ok (acc, eng)
  | .cons article_title article_clauses rest, acc, eng =>
    match build_article_index llm article_title article_clauses
        (section_title ++ " - " ++ article_title) with
    | .error e => .error e
    | .ok none => processArticles llm section_title rest acc eng
    | .ok (some (article_node, article_query_engine)) =>
      processArticles llm section_title rest (acc ++ [article_node])
        (dictInsert eng article_title article_query_engine)

/-- The item loop of one chapter: a `Mục ...` key opens a section tier, a
`Điều ...` key is an article directly under the chapter, any other key is
ignored. -/
def processChapterItems (llm : String → Except String String) (chapter_title : String) :
    Entries → List IndexNode → List (String × Engine) →
    Except BuildError (List IndexNode × List (String × Engine))
  | .nil, acc, eng => .ok (acc, eng)
  | .cons item_key item_content rest, acc, eng =>
    if pyStartsWith item_key "Mục" then
      match pyItems item_content with
      | .error e => .error e
      | .ok arts =>
        match processArticles llm item_key arts [] eng with
        | .error e => .error e
        | .ok (section_article_nodes, eng1) =>
          if section_article_nodes.isEmpty then
            processChapterItems llm chapter_title rest acc eng1
          else
            let section_summary := summarize_nodes llm
              (section_article_nodes.map (fun n => n.text))
              ("Tóm tắt nội dung của " ++ item_key) "section"
            let section_node : IndexNode :=
              { text := item_key ++ ": " ++ section_summary, index_id := item_key
                metadata := [] }
            processChapterItems llm chapter_title rest (acc ++ [section_node])
              (dictInsert eng1 item_key (section_article_nodes.map (fun n => n.text)))
    else if pyStartsWith item_key "Điều" then
      match build_article_index llm item_key item_content
          (chapter_title ++ " - " ++ item_key) with
      | .error e => .error e
      | .ok none => processChapterItems llm chapter_title rest acc eng
      | .ok (some (article_node, article_query_engine)) =>
        processChapterItems llm chapter_title rest (acc ++ [article_node])
          (dictInsert eng item_key article_query_engine)
    else processChapterItems llm chapter_title rest acc eng

/-- The chapter loop of one part: build each chapter's children, and if any
survive, emit the chapter `IndexNode` and register the chapter engine. -/
def processChapters (llm : String → Except String String) (part_title : String) :
    Entries → List IndexNode → List (String × Engine) →
    Except BuildError (List IndexNode × List (String × Engine))
  | .nil, acc, eng => .ok (acc, eng)
  | .cons chapter_title chapter_content rest, acc, eng =>
    match pyItems chapter_content with
    | .error e => .error e
    | .ok citems =>
      match processChapterItems llm chapter_title citems [] eng with
      | .error e => .error e
      | .ok (chapter_nodes, eng1) =>
        if chapter_nodes.isEmpty then processChapters llm part_title rest acc eng1
        else
          let chapter_summary := summarize_nodes llm
            (chapter_nodes.map (fun n => n.text))
            ("Tóm tắt nội dung của " ++ chapter_title) "chapter"
          let chapter_node : IndexNode :=
            { text := chapter_title ++ ": " ++ chapter_summary
              index_id := chapter_title, metadata := [] }
          processChapters llm part_title rest (acc ++ [chapter_node])
            (dictInsert eng1 chapter_title (chapter_nodes.map (fun n => n.text)))

/-- The part loop of `build_hierarchical_index`. -/
def processParts (llm : String → Except String String) :
    Entries → List IndexNode → List (String × Engine) →
    Except BuildError (List IndexNode × List (String × Engine))
  | .nil, acc, eng => .ok (acc, eng)
  | .cons part_title part_content rest, acc, eng =>
    match pyItems part_content with
    | .error e => .error e
    | .ok chapters =>
      match processChapters llm part_title chapters [] eng with
      | .error e => .error e
      | .ok (part_chapter_nodes, eng1) =>
        if part_chapter_nodes.isEmpty then processParts llm rest acc eng1
        else
          let part_summary := summarize_nodes llm
            (part_chapter_nodes.map (fun n => n.text))
            ("Tóm tắt nội dung của " ++ part_title) "part"
          let part_node : IndexNode :=
            { text := part_title ++ ": " ++ part_summary
              index_id := part_title, metadata := [] }
          processParts llm rest (acc ++ [part_node])
            (dictInsert eng1 part_title (part_chapter_nodes.map (fun n => n.text)))

/-- Model of `build_hierarchical_index(law_tree)`: the top-level index (the list of
part nodes) plus the title-keyed child query engine dict; raises `ValueError`
when no part-level node exists. -/
def build_hierarchical_index (llm : String → Except String String)
    (law_tree : LawTree) :
    Except BuildError (List IndexNode × List (String × Engine)) :=
  match processParts llm law_tree.content [] [] with
  | .error e => .error e
  | .ok (all_part_nodes, child_query_engines) =>
    if all_part_nodes.isEmpty then
      .error (.valueError "Không có dữ liệu để tạo index. Kiểm tra lại cấu trúc law_tree.")
    else .ok (all_part_nodes, child_query_engines)

/-! Section: Recursive query router trace extraction (`retrieval.py`)

The retrievers and the `re.search` marker matchers are collaborators of the
trace logic: a retriever yields a list of scored nodes, and each marker
matcher (`Chương ...`, `PHẦN THỨ ...`, `Điều ...`, `Khoản`/`Điểm` patterns)
either returns the matched group or `None`.  The tier selection (`[:1]`,
`[:1]`, `[:2]`) and the response formatting are translated exactly. -/

/-- A retrieved `NodeWithScore`: its node text and score (float scores are
modelled as integers; the trace logic never computes with them). -/
structure RetrievedNode where
  text : String
  score : Int
deriving Repr, DecidableEq

/-- A Global- or Bridge-tier trace item (`{"type", "title", "score"}`). -/
structure GBItem where
  kind : String
  title : String
  score : Int
deriving Repr, DecidableEq

/-- A Local-tier trace item (`{"type", "content", "score"}`). -/
structure LocalItem where
  kind : String
  content : String
  score : Int
deriving Repr, DecidableEq

/-- Model of `EnhancedQueryEngine._get_global_level_nodes`: for each retrieved node,
try the `Chương` regex then the `PHẦN THỨ` regex, keep the stripped match,
and return the top 1. -/
def get_global_level_nodes (chapterMatch partMatch : String → Option String)
    (retrieved : List RetrievedNode) : List GBItem :=
  (retrieved.filterMap (fun n =>
    match chapterMatch n.text with
    | some m => some { kind := "Chương", title := pyStrip m, score := n.score }
    | none =>
      match partMatch n.text with
      | some m => some { kind := "Phần", title := pyStrip m, score := n.score }
      | none => none)).take 1

/-- Model of `EnhancedQueryEngine._get_bridge_level_nodes`: `Điều` matches, top 1. -/
def get_bridge_level_nodes (articleMatch : String → Option String)
    (retrieved : List RetrievedNode) : List GBItem :=
  (retrieved.filterMap (fun n =>
    (articleMatch n.text).map (fun m =>
      { kind := "Điều", title := pyStrip m, score := n.score }))).take 1

/-- Model of `EnhancedQueryEngine._get_local_level_nodes`: `Khoản` then `Điểm`
matches, top 2. -/
def get_local_level_nodes (khoanMatch diemMatch : String → Option String)
    (retrieved : List RetrievedNode) : List LocalItem :=
  (retrieved.filterMap (fun n =>
    match khoanMatch n.text with
    | some m => some { kind := "Khoản", content := pyStrip m, score := n.score }
    | none =>
      match diemMatch n.text with
      | some m => some { kind := "Điểm", content := pyStrip m, score := n.score }
      | none => none)).take 2

/-- The `structured_info` dict. -/
structure StructuredInfo where
  globalItems : List GBItem
  bridgeItems : List GBItem
  localItems : List LocalItem
deriving Repr, DecidableEq

/-- The Local-tier enumeration `f"  {i}. {local_item['content']}\n"`. -/
def localLines (i : Nat) : List LocalItem → String
  | [] => ""
  | x :: rest => "  " ++ toString i ++ ". " ++ x.content ++ "\n" ++ localLines (i + 1) rest

/-- Model of `EnhancedQueryEngine._format_structured_response`: tiers with an empty
item list are simply skipped; the LLM answer is always appended. -/
def format_structured_response (query : String) (structured_info : StructuredInfo)
    (llm_response : String) : String :=
  let result := "🔍 **Query**: " ++ query ++ "\n\n"
  let result :=
    match structured_info.globalItems with
    | [] => result
    | global_item :: _ =>
      result ++ "[Global] " ++ global_item.kind ++ " liên quan nhất: " ++
        global_item.title ++ "\n\n"
  let result :=
    match structured_info.bridgeItems with
    | [] => result
    | bridge_item :: _ =>
      result ++ "[Bridge] " ++ bridge_item.kind ++ " liên quan nhất: " ++
        bridge_item.title ++ "\n\n"
  let result :=
    if structured_info.localItems.isEmpty then result
    else result ++ "[Local] Nội dung liên quan nhất:\n" ++
      localLines 1 structured_info.localItems ++ "\n"
  result ++ "🤖 **Câu trả lời**:\n" ++ llm_response

/-! Section: Concrete fixtures used by the claim theorems -/

/-- A deterministically failing completion collaborator (the service raises
on every call). -/
def llmDown : String → Except String String := fun _ => .error "service unavailable"

/-- A minimal well-formed parsed tree: one part, one chapter (no section
tier), one article, one clause with content. -/
def c1tree : LawTree :=
  { title := "Bộ luật"
    content := .cons "PHẦN THỨ NHẤT" (.node (.cons "CHƯƠNG I" (.node (.cons "Điều 1." (.node
      (.cons "Khoản 1." (.leaf "Nội dung khoản") .nil)) .nil)) .nil)) .nil }

/-- A database holding one registered document (id 1) and nothing else. -/
def c1db : DBState :=
  { emptyDB with
      documents := [{ id := 1, file_path := "a.docx", file_hash := "h1",
                      title := "Bộ luật", created_at := 0, updated_at := 0 }]
      next_doc_id := 2 }

/-- What `load_law_tree` actually returns after saving `c1tree`: the tree is
rooted at the *chapter* (stored at level `'part'`), every tier is shifted up
by one, and the clause text is gone (its row stored level `'article'` with
empty content, so the loader turns it into an empty sub-dict). -/
def c1loaded : Entries :=
  .cons "CHƯƠNG I" (.node (.cons "Điều 1." (.node
    (.cons "Khoản 1." (.node .nil) .nil)) .nil)) .nil

/-- The `build_fresh_data` persistence sequence for a new document:
`register_document` ... -/
def c2reg : DBState × Nat := register_document emptyDB "b.docx" (some "Luật") "h1"

/-- Step two then runs `save_law_tree` (which succeeds on this tree; the
error branch is unreachable here) ... -/
def c2afterSave : DBState :=
  match save_law_tree c2reg.1 c2reg.2 c1tree with
  | .ok st => st
  | .error _ => c2reg.1

/-- Step three runs `save_indices`.  `build_fresh_data` never calls
`save_embeddings`, so no vector collection is ever created. -/
def c2final : DBState := save_indices c2afterSave c2reg.2 5

/-- A register step for the invalidation counterexample. -/
def c5reg : DBState × Nat := register_document emptyDB "c.docx" (some "Luật") "h1"

/-- A `save_embeddings` call with a record whose metadata carries no
`hierarchy_id`: the collection is created but no hierarchy row references
it. -/
def c5afterEmb : DBState :=
  save_embeddings c5reg.1 c5reg.2 [{ id := "v1", hierarchy_id := none, text := "t" }]

/-- A state with one document whose hierarchy and cache-status rows exist,
used to re-register with a different hash. -/
def c3st : DBState :=
  { emptyDB with
      documents := [{ id := 1, file_path := "a.docx", file_hash := "h1",
                      title := "Bộ luật", created_at := 0, updated_at := 0 }]
      hierarchy := [{ id := 1, document_id := 1, parent_id := none, level := "root",
                      title := "PHẦN THỨ NHẤT", content := "", order_index := 0,
                      vector_collection := none, vector_id := none }]
      cache_status := [{ document_id := 1, parsing_done := true, indexing_done := true,
                         embeddings_done := true, last_build := some 0, build_stats := none }]
      collections := [(collectionName 1, [{ id := "v1", hierarchy_id := some 1, text := "t" }])]
      objects := [topIndexFile 1, enginesFile 1]
      next_doc_id := 2, next_hier_id := 2, now := 7 }

/-- An article whose clauses are all "empty" in the builder's sense: an
empty string and a whitespace-only string. -/
def c4clauses : Entries :=
  .cons "Khoản 1." (.leaf "") (.cons "Khoản 2." (.leaf "   ") .nil)

/-- A document whose single part / chapter / article contains only empty
clauses, so no node survives at any level. -/
def c4tree : LawTree :=
  { title := "Bộ luật"
    content := .cons "PHẦN THỨ NHẤT" (.node (.cons "CHƯƠNG I" (.node
      (.cons "Điều 1." (.node c4clauses) .nil)) .nil)) .nil }

/-- Two parts each containing a chapter titled `"Chương I"` (distinct
subtrees with the same title) over distinct articles. -/
def c10tree : LawTree :=
  { title := "Bộ luật"
    content :=
      .cons "PHẦN THỨ NHẤT" (.node (.cons "Chương I" (.node (.cons "Điều 1." (.node
          (.cons "Khoản 1." (.leaf "nội dung A") .nil)) .nil)) .nil))
      (.cons "PHẦN THỨ HAI" (.node (.cons "Chương I" (.node (.cons "Điều 2." (.node
          (.cons "Khoản 1." (.leaf "nội dung B") .nil)) .nil)) .nil)) .nil) }

/-- Checks that every clause value of an article is "empty" in the builder's
sense: a whitespace-only (or empty) string, or an empty (falsy) dict — the
values `build_article_index` skips without error. -/
def allClausesEmptyB : Entries → Bool
  | .nil => true
  | .cons _ v rest =>
    (match v with
     | .leaf s => pyStrip s = ""
     | .node es => es.isEmpty) && allClausesEmptyB rest

/-- The state produced by the (successful) `save_law_tree` of `c1tree` into
`c1db`. -/
def c9result : DBState :=
  match save_law_tree c1db 1 c1tree with
  | .ok st => st
  | .error _ => c1db

/-! Section: general lemmas shared by the claim proofs -/

/-- Truncating to `m` after truncating to `n ≥ m` equals truncating to `m`
directly: the 8000-character LLM input cap never changes the 300-character
fallback summary. -/
theorem pyTruncate_pyTruncate (m n : Nat) (hmn : m ≤ n) (s : String) :
    pyTruncate m (pyTruncate n s) = pyTruncate m s := by
  by_cases h : pyLen s > n
  · have hm : pyLen s > m := Nat.lt_of_le_of_lt hmn h
    have h1 : pyTruncate n s = pyTake n s ++ "..." := by unfold pyTruncate; rw [if_pos h]
    have hdata : (pyTake n s ++ "...").data = List.take n s.data ++ ("..." : String).data := by
      rw [String.data_append]
      rfl
    have hlen : pyLen (pyTake n s ++ "...") = n + 3 := by
      unfold pyLen
      rw [hdata, List.length_append, List.length_take]
      have h3 : ("..." : String).data.length = 3 := rfl
      rw [h3]
      unfold pyLen at h
      omega
    have h2 : pyTruncate m (pyTake n s ++ "...") = pyTake m (pyTake n s ++ "...") ++ "..." := by
      unfold pyTruncate
      rw [if_pos (by rw [hlen]; omega)]
    have hl : m ≤ (List.take n s.data).length := by
      rw [List.length_take]
      unfold pyLen at h
      omega
    have h3 : pyTake m (pyTake n s ++ "...") = pyTake m s := by
      show String.mk ((pyTake n s ++ "...").data.take m) = String.mk (s.data.take m)
      rw [hdata]
      congr 1
      rw [List.take_append_of_le_length hl, List.take_take, Nat.min_eq_left hmn]
    have h4 : pyTruncate m s = pyTake m s ++ "..." := by unfold pyTruncate; rw [if_pos hm]
    rw [h1, h2, h3, h4]
  · unfold pyTruncate
    rw [if_neg h]

/-- After an `INSERT OR REPLACE`, looking the key up finds exactly the new
row. -/
theorem find?_upsertCacheRow (l : List CacheStatusRow) (r : CacheStatusRow) (k : Nat)
    (hk : r.document_id = k) :
    (upsertCacheRow l r).find? (fun c => c.document_id = k) = some r := by
  subst hk
  unfold upsertCacheRow
  induction l with
  | nil => simp
  | cons x xs ih =>
    by_cases hx : x.document_id = r.document_id
    · simp only [List.filter_cons, hx]
      simpa using ih
    · simp only [List.filter_cons, hx]
      simpa [List.find?_cons, hx] using ih

/-- Looking up a key among the rows kept by `DELETE ... WHERE document_id = ?`
finds nothing. -/
theorem find?_eq_none_filter_ne (l : List CacheStatusRow) (k : Nat) :
    (l.filter (fun c => c.document_id ≠ k)).find? (fun c => c.document_id = k) = none := by
  induction l with
  | nil => simp
  | cons x xs ih =>
    by_cases hx : x.document_id = k <;> simp [List.filter_cons, hx, List.find?_cons, ih]

/-- No row of a document survives `DELETE FROM hierarchy WHERE
document_id = ?`. -/
theorem hier_filter_eq_nil (l : List HierarchyRow) (k : Nat) :
    (l.filter (fun r => r.document_id ≠ k)).filter (fun r => r.document_id = k) = [] := by
  induction l with
  | nil => simp
  | cons x xs ih =>
    by_cases hx : x.document_id = k <;> simp [List.filter_cons, hx, ih]

/-- Replacing the value at an existing key makes lookup find the new pair. -/
theorem find?_map_replace {α : Type} (m : List (String × α)) (k : String) (v : α)
    (h : m.any (fun p => p.1 = k) = true) :
    (m.map (fun p => if p.1 = k then (k, v) else p)).find? (fun p => p.1 = k) =
      some (k, v) := by
  induction m with
  | nil => simp at h
  | cons p rest ih =>
    by_cases hp : p.1 = k
    · simp [hp, List.find?_cons]
    · have h2 : rest.any (fun p => p.1 = k) = true := by
        simpa [List.any_cons, hp] using h
      simpa [hp, List.find?_cons] using ih h2

/-- Python dict semantics: after `d[k] = v`, `d[k]` is `v` — whatever was
stored under `k` before is gone. -/
theorem dictLookup_dictInsert {α : Type} (m : List (String × α)) (k : String) (v : α) :
    dictLookup (dictInsert m k v) k = some v := by
  unfold dictInsert dictLookup
  by_cases hany : m.any (fun p => p.1 = k) = true
  · rw [if_pos hany, find?_map_replace m k v hany]
    rfl
  · rw [if_neg hany, List.find?_append]
    have hnone : m.find? (fun p => p.1 = k) = none := by
      rw [List.find?_eq_none]
      intro x hx
      simp only [List.any_eq_true, not_exists, not_and] at hany
      intro hc
      exact hany x hx hc
    simp [hnone, List.find?_cons]

/-- Everything a filter keeps satisfies the filter's predicate. -/
theorem all_filter_self {α : Type} (p : α → Bool) (l : List α) :
    (l.filter p).all p = true := by
  rw [List.all_eq_true]
  intro x hx
  exact (List.mem_filter.mp hx).2

/-- An article whose clause values are all empty produces no clause node:
the whitespace check skips each one. -/
theorem collectClauseNodes_all_empty (t : String) :
    ∀ (cl : Entries), allClausesEmptyB cl = true → collectClauseNodes t cl = .ok []
  | .nil, _ => rfl
  | .cons k v rest, h => by
    unfold allClausesEmptyB at h
    cases v with
    | leaf s =>
      simp only [Bool.and_eq_true, decide_eq_true_eq] at h
      obtain ⟨h1, h2⟩ := h
      have hcond : ¬(s ≠ "" ∧ pyStrip s ≠ "") := by
        intro hc
        exact hc.2 h1
      simp only [collectClauseNodes, collectClauseNodes_all_empty t rest h2, if_neg hcond]
    | node es =>
      simp only [Bool.and_eq_true] at h
      obtain ⟨h1, h2⟩ := h
      simp only [collectClauseNodes, if_pos h1]
      exact collectClauseNodes_all_empty t rest h2

/-! Section: claim theorems -/

/-- C1: the save/load pair is claimed to be a lossless round trip; evaluating
the code on the minimal saved tree shows it is not.  `save_law_tree` inserts
the part at level `'root'` and shifts every tier one level up while always
inserting empty content, so `load_law_tree` (which roots at `level='part'`
and treats only `level='clause'` rows as leaves) returns a tree rooted at the
chapter, with the clause text replaced by an empty dict — not the saved
tree. -/
theorem save_load_roundtrip_not_lossless :
    ((save_law_tree c1db 1 c1tree).toOption.bind (fun st => load_law_tree st 1) =
        some { title := "Bộ luật", content := c1loaded }) ∧
    c1tree.content.titles = ["PHẦN THỨ NHẤT"] ∧
    c1loaded.titles = ["CHƯƠNG I"] :=
  ⟨rfl, rfl, rfl⟩

/-- C2: after `build_fresh_data`'s persistence sequence (`register_document`,
`save_law_tree`, `save_indices` — `save_embeddings` is never called), the
cache-status row has all three flags TRUE and both artifact files exist, yet
no vector collection exists for the document: `embeddings_done`/
`indexing_done` are set while the prerequisite vector entries are absent,
contradicting the claimed invariant. -/
theorem save_indices_sets_flags_without_vectors :
    ((c2final.cache_status.find? (fun c => c.document_id = 1)).map
        (fun c => (c.parsing_done, c.indexing_done, c.embeddings_done)) =
      some (true, true, true)) ∧
    c2final.collections = [] ∧
    c2final.objects = [topIndexFile 1, enginesFile 1] :=
  ⟨rfl, rfl, rfl⟩

/-- C3 counterexample: re-registering `c3st`'s document with a different
hash deletes its hierarchy rows and its cache-status row, refuting the claim
that `register_document` "does not itself delete any child data". -/
theorem register_changed_deletes_child_rows :
    c3st.hierarchy.length = 1 ∧ c3st.cache_status.length = 1 ∧
    (register_document c3st "a.docx" none "h2").1.hierarchy = [] ∧
    (register_document c3st "a.docx" none "h2").1.cache_status = [] :=
  ⟨rfl, rfl, rfl, rfl⟩

/-- C3 amended: on re-registration with a differing content hash,
`register_document` returns the existing id, updates the stored hash and
timestamp of the document record, and deletes the document's cache-status
and hierarchy rows — but touches neither the vector collections nor the
artifact files, whose deletion is left to `clear_document_cache`. -/
theorem register_changed_updates_and_deletes_sql_children (st : DBState)
    (p : String) (t : Option String) (h : String) (d : DocumentRow)
    (hfind : st.documents.find? (fun x => x.file_path = p) = some d)
    (hne : d.file_hash ≠ h) :
    (register_document st p t h).2 = d.id ∧
    (register_document st p t h).1.documents = st.documents.map (fun x =>
      if x.id = d.id then { x with file_hash := h, updated_at := st.now } else x) ∧
    (register_document st p t h).1.hierarchy =
      st.hierarchy.filter (fun r => r.document_id ≠ d.id) ∧
    (register_document st p t h).1.cache_status =
      st.cache_status.filter (fun c => c.document_id ≠ d.id) ∧
    (register_document st p t h).1.collections = st.collections ∧
    (register_document st p t h).1.objects = st.objects := by
  unfold register_document
  rw [hfind]
  simp [hne]

/-- C3 witness: the amended statement instantiated on `c3st`. -/
theorem register_changed_updates_and_deletes_sql_children_witness :
    (c3st.documents.find? (fun x => x.file_path = "a.docx") =
      some { id := 1, file_path := "a.docx", file_hash := "h1", title := "Bộ luật",
             created_at := 0, updated_at := 0 }) ∧
    ("h1" ≠ "h2") ∧
    ((register_document c3st "a.docx" none "h2").2 = 1 ∧
     (register_document c3st "a.docx" none "h2").1.collections = c3st.collections ∧
     (register_document c3st "a.docx" none "h2").1.objects = c3st.objects) := by
  refine ⟨rfl, by decide, ?_⟩
  have h := register_changed_updates_and_deletes_sql_children c3st "a.docx" none "h2"
    _ rfl (by decide)
  exact ⟨h.1, h.2.2.2.2.1, h.2.2.2.2.2⟩

/-- C4: an article whose clauses are all empty yields `(None, None)` — no
node and no query handle — for every completion collaborator; and on a
document where this empties every part (`c4tree`), the builder raises the
structural `ValueError` instead of returning an index, again for every
completion collaborator. -/
theorem builder_empty_article_and_structural_error :
    (∀ (llm : String → Except String String) (title : String) (cl : Entries)
        (ctx : String), allClausesEmptyB cl = true →
        build_article_index llm title (.node cl) ctx = .ok none) ∧
    (∀ llm : String → Except String String,
        build_hierarchical_index llm c4tree = .error (.valueError
          "Không có dữ liệu để tạo index. Kiểm tra lại cấu trúc law_tree.")) := by
  constructor
  · intro llm title cl ctx h
    unfold build_article_index
    cases cl with
    | nil => rfl
    | cons k v rest =>
      have hcol := collectClauseNodes_all_empty title (.cons k v rest) h
      simp [pyFalsy, Entries.isEmpty, pyItems, hcol]
  · intro llm
    rfl

/-- C4 witness: the all-empty clause dict `c4clauses` makes
`build_article_index` return no node and no handle. -/
theorem builder_empty_article_and_structural_error_witness :
    allClausesEmptyB c4clauses = true ∧
    build_article_index llmDown "Điều 1." (.node c4clauses) "CHƯƠNG I - Điều 1." = .ok none :=
  ⟨rfl, builder_empty_article_and_structural_error.1 llmDown "Điều 1." c4clauses
    "CHƯƠNG I - Điều 1." rfl⟩

/-- C5 counterexample: a ChromaDB collection that no hierarchy row references
(reachable via `register_document` then `save_embeddings` with a record
carrying no `hierarchy_id`) survives `clear_document_cache`, refuting the
claim that the document's vector collection is always absent afterwards. -/
theorem clear_cache_misses_unreferenced_collection :
    c5afterEmb.collections =
      [(collectionName 1, [{ id := "v1", hierarchy_id := none, text := "t" }])] ∧
    (clear_document_cache c5afterEmb 1).collections =
      [(collectionName 1, [{ id := "v1", hierarchy_id := none, text := "t" }])] :=
  ⟨rfl, rfl⟩

/-- C5 amended: after `clear_document_cache(D)`, the hierarchy rows for D,
D's cache-status row, and D's artifact files are absent, `is_cache_complete`
is false, and the document record is intact; of the vector collections,
exactly those referenced from D's hierarchy rows are deleted (every
surviving collection is unreferenced — an unreferenced collection of D may
survive). -/
theorem clear_document_cache_invalidation (st : DBState) (doc_id : Nat) :
    ((clear_document_cache st doc_id).hierarchy.filter
        (fun r => r.document_id = doc_id) = []) ∧
    ((clear_document_cache st doc_id).cache_status.find?
        (fun c => c.document_id = doc_id) = none) ∧
    (is_cache_complete (clear_document_cache st doc_id) doc_id = false) ∧
    ((clear_document_cache st doc_id).documents = st.documents) ∧
    ((clear_document_cache st doc_id).objects.all
        (fun o => ¬ matchesDocPkl doc_id o) = true) ∧
    ((clear_document_cache st doc_id).collections.all
        (fun c => ¬ c.1 ∈ referencedCollections st doc_id) = true) := by
  refine ⟨?_, ?_, ?_, rfl, ?_, ?_⟩
  · exact hier_filter_eq_nil st.hierarchy doc_id
  · exact find?_eq_none_filter_ne st.cache_status doc_id
  · unfold is_cache_complete
    rw [show (clear_document_cache st doc_id).cache_status.find?
        (fun c => c.document_id = doc_id) = none from
      find?_eq_none_filter_ne st.cache_status doc_id]
  · exact all_filter_self _ _
  · exact all_filter_self _ _

/-- C6: re-registering a document whose stored hash equals the computed hash
returns the existing document id and leaves the whole state — in particular
the cache-status rows — unchanged. -/
theorem register_unchanged_idempotent (st : DBState) (p : String)
    (t : Option String) (h : String) (d : DocumentRow)
    (hfind : st.documents.find? (fun x => x.file_path = p) = some d)
    (hhash : d.file_hash = h) :
    register_document st p t h = (st, d.id) := by
  unfold register_document
  rw [hfind]
  simp [hhash]

/-- C6 witness: the idempotence statement instantiated on `c1db`. -/
theorem register_unchanged_idempotent_witness :
    c1db.documents.find? (fun x => x.file_path = "a.docx") =
      some { id := 1, file_path := "a.docx", file_hash := "h1", title := "Bộ luật",
             created_at := 0, updated_at := 0 } ∧
    register_document c1db "a.docx" none "h1" = (c1db, 1) :=
  ⟨rfl, register_unchanged_idempotent c1db "a.docx" none "h1" _ rfl rfl⟩

/-- C7: whenever the completion collaborator fails on the summarization
prompt — it raises, or returns a result that strips to the empty string or
to fewer than 10 characters — `summarize_nodes` returns exactly the
deterministic 300-character truncation of the newline-concatenated child
texts, so the build completes without the external summarizer. -/
theorem summarize_nodes_fallback_truncation (llm : String → Except String String)
    (texts : List String) (sp lvl : String) (hne : texts ≠ [])
    (hfail : ∀ r, llm (summaryPromptText sp (pyTruncate 8000 (pyJoin "\n" texts))) = .ok r →
        pyStrip r = "" ∨ pyLen (pyStrip r) < 10) :
    summarize_nodes llm texts sp lvl = pyTruncate 300 (pyJoin "\n" texts) := by
  have hne' : texts.isEmpty = false := by
    cases texts with
    | nil => exact absurd rfl hne
    | cons a l => rfl
  unfold summarize_nodes
  rw [hne']
  dsimp only
  cases hllm : llm (summaryPromptText sp (pyTruncate 8000 (pyJoin "\n" texts))) with
  | error e =>
    simp only [hne', Bool.false_eq_true, if_false]
    exact pyTruncate_pyTruncate 300 8000 (by omega) _
  | ok t =>
    simp only [hne', Bool.false_eq_true, if_false]
    rw [if_pos (hfail t hllm)]
    exact pyTruncate_pyTruncate 300 8000 (by omega) _

/-- C7 witness: the fallback statement instantiated with the failing
collaborator `llmDown` and a concrete node list. -/
theorem summarize_nodes_fallback_truncation_witness :
    ((["điều khoản a"] : List String) ≠ []) ∧
    summarize_nodes llmDown ["điều khoản a"] "Tóm tắt nội dung chính của Điều 1." "article" =
      pyTruncate 300 (pyJoin "\n" ["điều khoản a"]) :=
  ⟨by decide,
   summarize_nodes_fallback_truncation llmDown ["điều khoản a"]
     "Tóm tắt nội dung chính của Điều 1." "article"
     (by decide) (fun r hr => absurd hr (by simp [llmDown]))⟩

/-- C8: for every query the structured trace holds at most 1 Global item, at
most 1 Bridge item and at most 2 Local items; when no marker matches at a
tier the tier's list is empty; and formatting with all tiers empty is a
total function that simply omits every tier, leaving only the query header
and the generated answer. -/
theorem trace_tier_bounds_and_omission :
    (∀ (cm pm : String → Option String) (r : List RetrievedNode),
        (get_global_level_nodes cm pm r).length ≤ 1) ∧
    (∀ (am : String → Option String) (r : List RetrievedNode),
        (get_bridge_level_nodes am r).length ≤ 1) ∧
    (∀ (km dm : String → Option String) (r : List RetrievedNode),
        (get_local_level_nodes km dm r).length ≤ 2) ∧
    (∀ r, get_global_level_nodes (fun _ => none) (fun _ => none) r = []) ∧
    (∀ r, get_bridge_level_nodes (fun _ => none) r = []) ∧
    (∀ r, get_local_level_nodes (fun _ => none) (fun _ => none) r = []) ∧
    (∀ q resp, format_structured_response q ⟨[], [], []⟩ resp =
        "🔍 **Query**: " ++ q ++ "\n\n" ++ "🤖 **Câu trả lời**:\n" ++ resp) := by
  refine ⟨?_, ?_, ?_, ?_, ?_, ?_, ?_⟩
  · intro cm pm r
    unfold get_global_level_nodes
    rw [List.length_take]
    exact Nat.min_le_left _ _
  · intro am r
    unfold get_bridge_level_nodes
    rw [List.length_take]
    exact Nat.min_le_left _ _
  · intro km dm r
    unfold get_local_level_nodes
    rw [List.length_take]
    exact Nat.min_le_left _ _
  · intro r
    unfold get_global_level_nodes
    rw [List.filterMap_eq_nil_iff.mpr (fun a _ => rfl)]
    rfl
  · intro r
    unfold get_bridge_level_nodes
    induction r with
    | nil => rfl
    | cons a l ih => simpa [List.filterMap_cons] using ih
  · intro r
    unfold get_local_level_nodes
    rw [List.filterMap_eq_nil_iff.mpr (fun a _ => rfl)]
    rfl
  · intro q resp
    rfl

/-- C9: a successful `save_law_tree` replaces the whole cache-status row via
`INSERT OR REPLACE`, so afterwards the row is exactly (`parsing_done = true`,
`indexing_done = false`, `embeddings_done = false`) — whatever the flags were
before — and the document is no longer fully cached. -/
theorem save_law_tree_replaces_cache_row (st : DBState) (doc_id : Nat)
    (tree : LawTree) (st' : DBState)
    (h : save_law_tree st doc_id tree = .ok st') :
    st'.cache_status.find? (fun c => c.document_id = doc_id) =
      some { document_id := doc_id, parsing_done := true, indexing_done := false
             embeddings_done := false, last_build := some st.now, build_stats := none } ∧
    is_cache_complete st' doc_id = false := by
  unfold save_law_tree at h
  cases heq : saveHierarchyRec doc_id tree.content none "root" 0 0
      ⟨st.hierarchy, st.next_hier_id⟩ with
  | error e => rw [heq] at h; exact absurd h (by simp)
  | ok hh =>
    rw [heq] at h
    injection h with h
    subst h
    have hfind : (upsertCacheRow st.cache_status
        { document_id := doc_id, parsing_done := true, indexing_done := false
          embeddings_done := false, last_build := some st.now,
          build_stats := none }).find? (fun c => c.document_id = doc_id) =
        some { document_id := doc_id, parsing_done := true, indexing_done := false
               embeddings_done := false, last_build := some st.now,
               build_stats := none } :=
      find?_upsertCacheRow st.cache_status _ doc_id rfl
    refine ⟨hfind, ?_⟩
    unfold is_cache_complete
    dsimp only
    rw [hfind]
    rfl

/-- C9 witness: the reset statement instantiated on the concrete save of
`c1tree` into `c1db`. -/
theorem save_law_tree_replaces_cache_row_witness :
    save_law_tree c1db 1 c1tree = .ok c9result ∧
    (c9result.cache_status.find? (fun c => c.document_id = 1) =
      some { document_id := 1, parsing_done := true, indexing_done := false
             embeddings_done := false, last_build := some c1db.now, build_stats := none } ∧
     is_cache_complete c9result 1 = false) :=
  ⟨rfl, save_law_tree_replaces_cache_row c1db 1 c1tree c9result rfl⟩

/-- C10: the child-engine dict is keyed by node title alone and Python dict
assignment overwrites — for any engines dict, inserting under an existing
key makes lookup return the newly inserted handle; concretely, building
`c10tree` (two parts each holding a chapter titled "Chương I") leaves a
single entry for "Chương I" whose engine indexes the *second* part's chapter
(the subtree processed later), the first chapter's handle being lost. -/
theorem child_engines_title_overwrite :
    (∀ (m : List (String × Engine)) (k : String) (v : Engine),
        dictLookup (dictInsert m k v) k = some v) ∧
    ((build_hierarchical_index llmDown c10tree).toOption.map
        (fun r => dictLookup r.2 "Chương I") =
      some (some ["Điều 2.: Điều 2. - Khoản 1.: nội dung B"])) ∧
    ((build_hierarchical_index llmDown c10tree).toOption.map
        (fun r => r.2.countP (fun p => p.1 = "Chương I")) = some 1) :=
  ⟨fun m k v => dictLookup_dictInsert m k v, rfl, rfl⟩
